import Mathlib

/-!
Shallow embedding of `src/Python/tools/actor_tools.py` (the actor tools of
the unreal-mcp repository).

Python values are modelled by the inductive type `Val`; the dynamic
behaviour of the Python operators the file uses (truthiness, `in`,
subscripting, `len`, `float()`, `dict.get`, `or`) is modelled by
`Except`-valued functions, an exception being an `Except.error`.  Each tool
operation becomes a Lean function of an `Env` — the external collaborators
`get_unreal_connection` and `send_command`, either of which may raise —
returning the operation's result together with the list of commands that
were actually handed to `send_command` (so that claims about what is or is
not forwarded can be stated).  The `try/except` wrapper of every operation
is the surrounding `match` on the `Except` values.
-/

/-- Model of a Python runtime value, restricted to the shapes this module
manipulates: `None`, booleans, integers, floats (modelled exactly as
rationals — the module performs no float arithmetic, only coercion),
strings, lists, and string-keyed dicts (association lists in insertion
order, without duplicate keys in any value the module builds). -/
inductive Val where
  | vNone
  | vBool (b : Bool)
  | vInt (n : Int)
  | vFloat (q : Rat)
  | vStr (s : String)
  | vList (xs : List Val)
  | vDict (entries : List (String × Val))

/-- A raised Python exception; only its display text matters here, because
`create_actor` interpolates it into its failure message. -/
structure PyErr where
  msg : String

/-- Python truthiness (`bool(v)`), used by `if not response` and `x or y`. -/
def truthy : Val → Bool
  | .vNone => false
  | .vBool b => b
  | .vInt n => decide (n ≠ 0)
  | .vFloat q => decide (q ≠ 0)
  | .vStr s => decide (s ≠ "")
  | .vList xs => !xs.isEmpty
  | .vDict es => !es.isEmpty

/-- Python `a or b`. -/
def pyOr (a b : Val) : Val :=
  if truthy a then a else b

/-- Lookup in a dict modelled as an association list (first match). -/
def dictGet? (es : List (String × Val)) (k : String) : Option Val :=
  match es with
  | [] => none
  | (k₀, v₀) :: rest => if k₀ = k then some v₀ else dictGet? rest k

/-- Python `k in d` for a dict: key membership. -/
def dictHasKey (es : List (String × Val)) (k : String) : Bool :=
  (dictGet? es k).isSome

/-- Python `==` between a string and an arbitrary value (used by list
membership): only an equal string compares equal. -/
def eqStrVal (k : String) : Val → Bool
  | .vStr s => k = s
  | _ => false

/-- Substring test on character lists, modelling Python `needle in haystack`
for strings. -/
def listHasInfix (needle : List Char) : List Char → Bool
  | [] => needle.isEmpty
  | c :: rest => needle.isPrefixOf (c :: rest) || listHasInfix needle rest

/-- Python `k in v` for a string key `k`: key membership for dicts, element
membership for lists, substring for strings, and a `TypeError` for
non-iterable values. -/
def pyContains (k : String) : Val → Except PyErr Bool
  | .vDict es => .ok (dictHasKey es k)
  | .vList xs => .ok (xs.any (eqStrVal k))
  | .vStr s => .ok (listHasInfix k.toList s.toList)
  | _ => .error ⟨"argument of type is not iterable"⟩

/-- Python `v[k]` for a string key `k`: dict lookup (raising `KeyError`
when absent), and a `TypeError` for every other value — string subscripts
are invalid for lists and strings. -/
def pyIndex (v : Val) (k : String) : Except PyErr Val :=
  match v with
  | .vDict es =>
    match dictGet? es k with
    | some x => .ok x
    | none => .error ⟨"KeyError: " ++ k⟩
  | _ => .error ⟨"TypeError: indices must be integers"⟩

/-- Python `len(v)`: defined for strings, lists and dicts; a `TypeError`
otherwise. -/
def pyLen : Val → Except PyErr Nat
  | .vStr s => .ok s.length
  | .vList xs => .ok xs.length
  | .vDict es => .ok es.length
  | _ => .error ⟨"TypeError: object has no len"⟩

/-- Python `v.get(k, d)`: defined for dicts; an `AttributeError` for any
other receiver. -/
def pyGetD (v : Val) (k : String) (d : Val) : Except PyErr Val :=
  match v with
  | .vDict es => .ok ((dictGet? es k).getD d)
  | _ => .error ⟨"AttributeError: object has no attribute get"⟩

/-- Python `s.upper()`, modelled for the ASCII strings the module deals
with. -/
def pyUpper (s : String) : String :=
  ⟨s.data.map Char.toUpper⟩

/-- Digits to a natural number, most significant first. -/
def digitsToNat (l : List Char) : Nat :=
  l.foldl (fun a c => a * 10 + (c.toNat - 48)) 0

/-- Parser for an unsigned decimal numeral with an optional fractional
part, the core of the model of Python `float(string)`. -/
def parseUnsigned? (l : List Char) : Option Rat :=
  match l.span Char.isDigit with
  | (ds, []) => if ds.isEmpty then none else some (digitsToNat ds)
  | (ds, '.' :: fs) =>
    if fs.all Char.isDigit && !(ds.isEmpty && fs.isEmpty) then
      some ((digitsToNat ds : Rat) + (digitsToNat fs : Rat) / ((10 : Rat) ^ fs.length))
    else none
  | _ => none

/-- Model of Python `float(string)`: surrounding spaces are stripped, an
optional sign precedes a decimal numeral.  (Python additionally accepts
exponents, `inf`/`nan` and underscores; no code path below depends on
those forms.) -/
def pyFloatOfStr? (s : String) : Option Rat :=
  let t := ((s.toList.dropWhile (· == ' ')).reverse.dropWhile (· == ' ')).reverse
  match t with
  | '-' :: rest => (parseUnsigned? rest).map Neg.neg
  | '+' :: rest => parseUnsigned? rest
  | _ => parseUnsigned? t

/-- Python `float(v)`: numbers and booleans coerce, strings are parsed,
everything else raises `TypeError`. -/
def pyFloat : Val → Except PyErr Rat
  | .vInt n => .ok (n : Rat)
  | .vFloat q => .ok q
  | .vBool b => .ok (if b then 1 else 0)
  | .vStr s =>
    match pyFloatOfStr? s with
    | some q => .ok q
    | none => .error ⟨"ValueError: could not convert string to float"⟩
  | .vNone => .error ⟨"float() argument must be a string or a real number, not NoneType"⟩
  | .vList _ => .error ⟨"float() argument must be a string or a real number, not list"⟩
  | .vDict _ => .error ⟨"float() argument must be a string or a real number, not dict"⟩

/-- The list comprehension `[float(val) for val in param_value]`: elements
are coerced left to right, the first failure raising. -/
def coerceAll : List Val → Except PyErr (List Val)
  | [] => .ok []
  | v :: vs =>
    match pyFloat v with
    | .error e => .error e
    | .ok q =>
      match coerceAll vs with
      | .error e => .error e
      | .ok rest => .ok (.vFloat q :: rest)

/-- Coercion of a whole geometry parameter; only ever reached on a list
(the `isinstance` check precedes it in `create_actor`). -/
def coerceTriple : Val → Except PyErr Val
  | .vList xs =>
    match coerceAll xs with
    | .error e => .error e
    | .ok ys => .ok (.vList ys)
  | _ => .error ⟨"TypeError: not iterable"⟩

/-- The check `isinstance(param_value, list) and len(param_value) == 3`. -/
def isListLen3 : Val → Bool
  | .vList xs => xs.length = 3
  | _ => false

/-- The external collaborators of `actor_tools.py`: the ambient connection
lookup `get_unreal_connection` (which may raise) and the connection's
`send_command` (which may raise, or return any value). -/
structure Env where
  connOk : Except PyErr Unit
  send : String → Val → Except PyErr Val

/-- The default location/rotation value `[0.0, 0.0, 0.0]`. -/
def defLoc : Val := .vList [.vFloat 0, .vFloat 0, .vFloat 0]

/-- The default scale value `[1.0, 1.0, 1.0]`. -/
def defScale : Val := .vList [.vFloat 1, .vFloat 1, .vFloat 1]

/-- The failure dictionary `{"success": False, "message": m}`. -/
def errDict (m : String) : Val :=
  .vDict [("success", .vBool false), ("message", .vStr m)]

/-- The message of the early validation return of `create_actor`. -/
def invalidMsg (p : String) : String :=
  "Invalid " ++ p ++ " format. Must be a list of 3 float values."

/-- Outcome of the parameter-building and validation phase of
`create_actor` (everything before `send_command`). -/
inductive ParamsOut where
  | earlyFail (m : String)
  | raised (e : PyErr)
  | okParams (params : Val)

/-- The body of `create_actor` up to the remote call: the `params` dict is
built with `or`-defaults, then for each of location, rotation, scale in
order the list/length check runs (early `return` of a failure dict on
violation) followed by the element-wise `float` coercion (which may
raise). -/
def buildCreateParams (name ty : String) (location rotation scale : Val) : ParamsOut :=
  let loc := pyOr location defLoc
  let rot := pyOr rotation defLoc
  let scl := pyOr scale defScale
  if isListLen3 loc = false then .earlyFail (invalidMsg "location")
  else
    match coerceTriple loc with
    | .error e => .raised e
    | .ok locC =>
      if isListLen3 rot = false then .earlyFail (invalidMsg "rotation")
      else
        match coerceTriple rot with
        | .error e => .raised e
        | .ok rotC =>
          if isListLen3 scl = false then .earlyFail (invalidMsg "scale")
          else
            match coerceTriple scl with
            | .error e => .raised e
            | .ok sclC =>
              .okParams (.vDict [("name", .vStr name), ("type", .vStr (pyUpper ty)),
                ("location", locC), ("rotation", rotC), ("scale", sclC)])

/-- `create_actor`: connection lookup, parameter validation, the remote
call, and response handling, every raise being caught by the outer
`except` which returns `{"success": False, "message": f"Error creating
actor: {e}"}`.  The second component records the commands actually passed
to `send_command`. -/
def create_actor (env : Env) (name ty : String) (location rotation scale : Val) :
    Val × List (String × Val) :=
  match env.connOk with
  | .error e => (errDict ("Error creating actor: " ++ e.msg), [])
  | .ok _ =>
    match buildCreateParams name ty location rotation scale with
    | .earlyFail m => (errDict m, [])
    | .raised e => (errDict ("Error creating actor: " ++ e.msg), [])
    | .okParams params =>
      match env.send "create_actor" params with
      | .error e => (errDict ("Error creating actor: " ++ e.msg), [("create_actor", params)])
      | .ok response =>
        if truthy response = false then
          (errDict "No response from Unreal Engine", [("create_actor", params)])
        else (response, [("create_actor", params)])

/-- The condition `"result" in response and "content" in response["result"]`,
with Python's left-to-right short-circuit evaluation; evaluating it may
itself raise. -/
def nestedCond (response : Val) : Except PyErr Bool :=
  match pyContains "result" response with
  | .error e => .error e
  | .ok false => .ok false
  | .ok true =>
    match pyIndex response "result" with
    | .error e => .error e
    | .ok r => pyContains "content" r

/-- `actors = v["content"]` followed by the `len(actors)` of the log line
`Found {len(actors)} actors in level` — either step may raise. -/
def contentAt (v : Val) : Except PyErr Val :=
  match pyIndex v "content" with
  | .error e => .error e
  | .ok actors =>
    match pyLen actors with
    | .error e => .error e
    | .ok _ => .ok actors

/-- The response-shape dispatch inside the `try` of `get_actors_in_level`:
empty response, nested `result.content`, direct `content`, or the
unrecognized-shape fallthrough. -/
def listContentBody (response : Val) : Except PyErr Val :=
  if truthy response = false then .ok (.vList [])
  else
    match nestedCond response with
    | .error e => .error e
    | .ok true =>
      match pyIndex response "result" with
      | .error e => .error e
      | .ok r => contentAt r
    | .ok false =>
      match pyContains "content" response with
      | .error e => .error e
      | .ok true => contentAt response
      | .ok false => .ok (.vList [])

/-- The shape dispatch of `get_actors_in_level` with its surrounding
`except`, which turns any raise into an empty list. -/
def runListContent (response : Val) : Val :=
  match listContentBody response with
  | .error _ => .vList []
  | .ok v => v

/-- `get_actors_in_level`: sends `get_actors_in_level` with empty params
and normalizes the response; every failure yields `[]`. -/
def get_actors_in_level (env : Env) : Val × List (String × Val) :=
  match env.connOk with
  | .error _ => (.vList [], [])
  | .ok _ =>
    match env.send "get_actors_in_level" (.vDict []) with
    | .error _ => (.vList [], [("get_actors_in_level", .vDict [])])
    | .ok response => (runListContent response, [("get_actors_in_level", .vDict [])])

/-- `find_actors_by_name`: sends the pattern, then
`response.get("actors", [])` behind the falsiness check; every failure
yields `[]`. -/
def find_actors_by_name (env : Env) (pat : String) : Val × List (String × Val) :=
  match env.connOk with
  | .error _ => (.vList [], [])
  | .ok _ =>
    match env.send "find_actors_by_name" (.vDict [("pattern", .vStr pat)]) with
    | .error _ => (.vList [], [("find_actors_by_name", .vDict [("pattern", .vStr pat)])])
    | .ok response =>
      if truthy response = false then
        (.vList [], [("find_actors_by_name", .vDict [("pattern", .vStr pat)])])
      else
        match pyGetD response "actors" (.vList []) with
        | .error _ => (.vList [], [("find_actors_by_name", .vDict [("pattern", .vStr pat)])])
        | .ok v => (v, [("find_actors_by_name", .vDict [("pattern", .vStr pat)])])

/-- `delete_actor`: sends the name and returns `response or {}`; every
failure yields `{}`. -/
def delete_actor (env : Env) (name : String) : Val × List (String × Val) :=
  match env.connOk with
  | .error _ => (.vDict [], [])
  | .ok _ =>
    match env.send "delete_actor" (.vDict [("name", .vStr name)]) with
    | .error _ => (.vDict [], [("delete_actor", .vDict [("name", .vStr name)])])
    | .ok response => (pyOr response (.vDict []), [("delete_actor", .vDict [("name", .vStr name)])])

/-- The test `v is not None`. -/
def isNoneV : Val → Bool
  | .vNone => true
  | _ => false

/-- One optional entry of the `set_actor_transform` params: included
exactly when the argument `is not None`. -/
def optGeom (k : String) (v : Val) : List (String × Val) :=
  if isNoneV v then [] else [(k, v)]

/-- The params dict `set_actor_transform` builds: the name plus every
geometry argument that `is not None`, unvalidated and uncoerced. -/
def transformParams (name : String) (location rotation scale : Val) : Val :=
  .vDict ([("name", .vStr name)] ++ optGeom "location" location
    ++ optGeom "rotation" rotation ++ optGeom "scale" scale)

/-- `set_actor_transform`: sends the name plus the supplied geometry
parameters and returns `response or {}`; every failure yields `{}`. -/
def set_actor_transform (env : Env) (name : String) (location rotation scale : Val) :
    Val × List (String × Val) :=
  match env.connOk with
  | .error _ => (.vDict [], [])
  | .ok _ =>
    match env.send "set_actor_transform" (transformParams name location rotation scale) with
    | .error _ => (.vDict [], [("set_actor_transform", transformParams name location rotation scale)])
    | .ok response =>
      (pyOr response (.vDict []), [("set_actor_transform", transformParams name location rotation scale)])

/-- `get_actor_properties`: sends the name and returns `response or {}`;
every failure yields `{}`. -/
def get_actor_properties (env : Env) (name : String) : Val × List (String × Val) :=
  match env.connOk with
  | .error _ => (.vDict [], [])
  | .ok _ =>
    match env.send "get_actor_properties" (.vDict [("name", .vStr name)]) with
    | .error _ => (.vDict [], [("get_actor_properties", .vDict [("name", .vStr name)])])
    | .ok response => (pyOr response (.vDict []), [("get_actor_properties", .vDict [("name", .vStr name)])])

/-- Test that a value is exactly a 3-element list of floats — the shape the
specification's geometry invariant demands after validation. -/
def isFloatTriple : Val → Bool
  | .vList [.vFloat _, .vFloat _, .vFloat _] => true
  | _ => false

/-- Test for a dict of the exact shape `errDict` produces:
`{"success": False, "message": <string>}`. -/
def isFailureDict : Val → Bool
  | .vDict [("success", .vBool false), ("message", .vStr _)] => true
  | _ => false

/-- Key lookup under a value that may or may not be a dict. -/
def vDictGet? (v : Val) (k : String) : Option Val :=
  match v with
  | .vDict es => dictGet? es k
  | _ => none

/-- Whether `coerceTriple` succeeds on a value. -/
def coerceSucceeds (v : Val) : Bool :=
  match coerceTriple v with
  | .ok _ => true
  | .error _ => false

/-- Modelled from the spec: the nested shape of the `list_content` mode —
the content sequence of a `result` mapping that is itself a mapping
containing a `content` key. -/
def nestedContent? (r : Val) : Option Val :=
  match r with
  | .vDict es =>
    match dictGet? es "result" with
    | some (.vDict rs) => dictGet? rs "content"
    | _ => none
  | _ => none

/-- Modelled from the spec: the direct shape of the `list_content` mode —
a `content` key directly in the response mapping. -/
def directContent? (r : Val) : Option Val :=
  match r with
  | .vDict es => dictGet? es "content"
  | _ => none

/-- Modelled from the spec: the `list_content` normalization exactly as the
specification words it — empty/absent gives an empty sequence, else the
nested `result.content`, else the direct `content`, else an empty
sequence. -/
def specListContent (r : Val) : Val :=
  if truthy r = false then .vList []
  else
    match nestedContent? r with
    | some c => c
    | none =>
      match directContent? r with
      | some c => c
      | none => .vList []

/-- Modelled from the spec: the `list_field("actors")` normalization as the
specification words it — empty/absent gives an empty sequence, else the
value under `actors` if present, else an empty sequence. -/
def specListField (r : Val) : Val :=
  if truthy r = false then .vList []
  else
    match r with
    | .vDict es => (dictGet? es "actors").getD (.vList [])
    | _ => .vList []

/-- Values on which Python `len` is defined. -/
def lenSupported : Val → Bool
  | .vStr _ => true
  | .vList _ => true
  | .vDict _ => true
  | _ => false

/-- The `result` entry of a response dict, if present, is itself a mapping,
and its `content` entry, if present, supports `len`. -/
def resultShapeOk (es : List (String × Val)) : Bool :=
  match dictGet? es "result" with
  | none => true
  | some (.vDict rs) =>
    (match dictGet? rs "content" with
     | none => true
     | some c => lenSupported c)
  | some _ => false

/-- The direct `content` entry of a response dict, if present, supports
`len`. -/
def directShapeOk (es : List (String × Val)) : Bool :=
  match dictGet? es "content" with
  | none => true
  | some c => lenSupported c

/-- Response shapes on which the probing of `get_actors_in_level` cannot
raise: any `result` key carries a mapping and any selected content value
supports `len`.  Non-dict responses are unrestricted. -/
def goodShape : Val → Bool
  | .vDict es => resultShapeOk es && directShapeOk es
  | _ => true

/-- Environment whose connection lookup succeeds and whose `send_command`
returns the given response to every command. -/
def envRespond (r : Val) : Env :=
  { connOk := .ok (), send := fun _ _ => .ok r }

/-- Environment whose connection lookup raises. -/
def envConnFail : Env :=
  { connOk := .error ⟨"no connection"⟩, send := fun _ _ => .error ⟨"no connection"⟩ }

/-- Environment whose connection lookup succeeds but whose `send_command`
always raises. -/
def envSendFail : Env :=
  { connOk := .ok (), send := fun _ _ => .error ⟨"socket closed"⟩ }

/-- A generic successful engine response. -/
def okResp : Val := .vDict [("success", .vBool true)]

/-- Every command recorded by `set_actor_transform` is the transform
command with the params dict built from the supplied arguments. -/
theorem set_transform_trace (env : Env) (name : String) (location rotation scale : Val)
    (c : String) (p : Val)
    (hmem : (c, p) ∈ (set_actor_transform env name location rotation scale).2) :
    c = "set_actor_transform" ∧ p = transformParams name location rotation scale := by
  unfold set_actor_transform at hmem
  cases hconn : env.connOk with
  | error e => rw [hconn] at hmem; simp at hmem
  | ok u =>
    rw [hconn] at hmem
    cases hs : env.send "set_actor_transform" (transformParams name location rotation scale) with
    | error e => rw [hs] at hmem; simp at hmem; exact hmem
    | ok r => rw [hs] at hmem; simp at hmem; exact hmem

/-- The key lookups of the params dict `set_actor_transform` builds: the
name is always present, and each geometry key is present exactly when the
corresponding argument is not `None`, carrying the supplied value
untouched. -/
theorem transformParams_get (name : String) (location rotation scale : Val) :
    vDictGet? (transformParams name location rotation scale) "name" = some (.vStr name)
  ∧ vDictGet? (transformParams name location rotation scale) "location"
      = (if isNoneV location then none else some location)
  ∧ vDictGet? (transformParams name location rotation scale) "rotation"
      = (if isNoneV rotation then none else some rotation)
  ∧ vDictGet? (transformParams name location rotation scale) "scale"
      = (if isNoneV scale then none else some scale) := by
  cases hl : isNoneV location <;> cases hr : isNoneV rotation <;> cases hs : isNoneV scale <;>
    simp [transformParams, optGeom, vDictGet?, dictGet?, hl, hr, hs]

/-- Claim C5: `set_actor_transform` forwards only the geometry parameters
that are supplied (not `None`), each with its value untouched, together
with the name; in particular, supplying only a location for `Box1`
forwards exactly the name and that location, with no rotation or scale
key. -/
theorem C5_transform_params (env : Env) (h : env.connOk = .ok ()) :
    (∀ name location rotation scale p,
      ("set_actor_transform", p) ∈ (set_actor_transform env name location rotation scale).2 →
        vDictGet? p "name" = some (.vStr name)
      ∧ vDictGet? p "location" = (if isNoneV location then none else some location)
      ∧ vDictGet? p "rotation" = (if isNoneV rotation then none else some rotation)
      ∧ vDictGet? p "scale" = (if isNoneV scale then none else some scale))
  ∧ (set_actor_transform env "Box1" (.vList [.vInt 1, .vInt 2, .vInt 3]) .vNone .vNone).2
      = [("set_actor_transform",
          .vDict [("name", .vStr "Box1"), ("location", .vList [.vInt 1, .vInt 2, .vInt 3])])] := by
  constructor
  · intro name location rotation scale p hmem
    obtain ⟨-, hp⟩ := set_transform_trace env name location rotation scale _ p hmem
    rw [hp]
    exact transformParams_get name location rotation scale
  · unfold set_actor_transform
    rw [h]
    cases hs : env.send "set_actor_transform"
        (transformParams "Box1" (.vList [.vInt 1, .vInt 2, .vInt 3]) .vNone .vNone) <;> rfl

/-- Claim C5 witness at a concrete environment. -/
theorem C5_transform_params_witness :
    (set_actor_transform (envRespond okResp) "Box1"
        (.vList [.vInt 1, .vInt 2, .vInt 3]) .vNone .vNone).2
      = [("set_actor_transform",
          .vDict [("name", .vStr "Box1"), ("location", .vList [.vInt 1, .vInt 2, .vInt 3])])] :=
  (C5_transform_params (envRespond okResp) rfl).2

/-- Claim C4: creating `Box1` of type `cube` with no geometry supplied
forwards exactly the name, the upper-cased type, the default zero triples
for location and rotation, and the unit triple for scale — and nothing
else is sent. -/
theorem C4_create_defaults (env : Env) (h : env.connOk = .ok ()) :
    (create_actor env "Box1" "cube" .vNone .vNone .vNone).2
      = [("create_actor", .vDict [("name", .vStr "Box1"), ("type", .vStr "CUBE"),
          ("location", .vList [.vFloat 0, .vFloat 0, .vFloat 0]),
          ("rotation", .vList [.vFloat 0, .vFloat 0, .vFloat 0]),
          ("scale", .vList [.vFloat 1, .vFloat 1, .vFloat 1])])] := by
  have hb : buildCreateParams "Box1" "cube" .vNone .vNone .vNone
      = .okParams (.vDict [("name", .vStr "Box1"), ("type", .vStr "CUBE"),
          ("location", .vList [.vFloat 0, .vFloat 0, .vFloat 0]),
          ("rotation", .vList [.vFloat 0, .vFloat 0, .vFloat 0]),
          ("scale", .vList [.vFloat 1, .vFloat 1, .vFloat 1])]) := rfl
  cases hs : env.send "create_actor" (.vDict [("name", .vStr "Box1"), ("type", .vStr "CUBE"),
      ("location", .vList [.vFloat 0, .vFloat 0, .vFloat 0]),
      ("rotation", .vList [.vFloat 0, .vFloat 0, .vFloat 0]),
      ("scale", .vList [.vFloat 1, .vFloat 1, .vFloat 1])]) with
  | error e => simp [create_actor, h, hb, hs]
  | ok resp => cases ht : truthy resp <;> simp [create_actor, h, hb, hs, ht]

/-- Claim C4 witness at a concrete environment. -/
theorem C4_create_defaults_witness :
    (create_actor (envRespond okResp) "Box1" "cube" .vNone .vNone .vNone).2
      = [("create_actor", .vDict [("name", .vStr "Box1"), ("type", .vStr "CUBE"),
          ("location", .vList [.vFloat 0, .vFloat 0, .vFloat 0]),
          ("rotation", .vList [.vFloat 0, .vFloat 0, .vFloat 0]),
          ("scale", .vList [.vFloat 1, .vFloat 1, .vFloat 1])])] :=
  C4_create_defaults (envRespond okResp) rfl

/-- Claim C7: for `delete_actor`, `set_actor_transform` and
`get_actor_properties`, a falsy (empty or absent) response yields the
empty dict and any truthy response — including one carrying a
remote-reported failure indicator — is returned unchanged. -/
theorem C7_passthrough (env : Env) (h : env.connOk = .ok ()) (name : String)
    (location rotation scale : Val) (r : Val) :
    (env.send "delete_actor" (.vDict [("name", .vStr name)]) = .ok r →
       (truthy r = false → (delete_actor env name).1 = .vDict [])
     ∧ (truthy r = true → (delete_actor env name).1 = r))
  ∧ (env.send "set_actor_transform" (transformParams name location rotation scale) = .ok r →
       (truthy r = false → (set_actor_transform env name location rotation scale).1 = .vDict [])
     ∧ (truthy r = true → (set_actor_transform env name location rotation scale).1 = r))
  ∧ (env.send "get_actor_properties" (.vDict [("name", .vStr name)]) = .ok r →
       (truthy r = false → (get_actor_properties env name).1 = .vDict [])
     ∧ (truthy r = true → (get_actor_properties env name).1 = r)) := by
  refine ⟨?_, ?_, ?_⟩ <;> intro hs <;>
    constructor <;> intro ht <;>
      simp [delete_actor, set_actor_transform, get_actor_properties, h, hs, pyOr, ht]

/-- Claim C7 witness: a remote-reported failure dict is relayed unchanged
by `delete_actor`. -/
theorem C7_passthrough_witness :
    (delete_actor (envRespond (.vDict [("success", .vBool false),
        ("error", .vStr "Actor not found")])) "Box1").1
      = .vDict [("success", .vBool false), ("error", .vStr "Actor not found")] :=
  ((C7_passthrough (envRespond (.vDict [("success", .vBool false),
      ("error", .vStr "Actor not found")])) rfl "Box1" .vNone .vNone .vNone
      (.vDict [("success", .vBool false), ("error", .vStr "Actor not found")])).1 rfl).2 rfl

/-- Claim C8: `find_actors_by_name` normalizes every response exactly as
the specification's `list_field("actors")` mode describes: falsy responses
give an empty list, otherwise the value under `actors` if present, else an
empty list. -/
theorem C8_list_field (env : Env) (h : env.connOk = .ok ()) (pat : String) (r : Val)
    (hr : env.send "find_actors_by_name" (.vDict [("pattern", .vStr pat)]) = .ok r) :
    (find_actors_by_name env pat).1 = specListField r := by
  unfold find_actors_by_name
  rw [h, hr]
  cases ht : truthy r with
  | false => simp [specListField, ht]
  | true => cases r <;> simp [specListField, pyGetD, ht]

/-- Claim C8 witness: a response carrying an `actors` list yields exactly
that list. -/
theorem C8_list_field_witness :
    (find_actors_by_name (envRespond (.vDict [("actors",
        .vList [.vStr "X", .vStr "Y"])])) "p").1 = .vList [.vStr "X", .vStr "Y"] :=
  (C8_list_field (envRespond (.vDict [("actors", .vList [.vStr "X", .vStr "Y"])])) rfl "p"
    (.vDict [("actors", .vList [.vStr "X", .vStr "Y"])]) rfl).trans rfl

/-- A falsy location argument is replaced by the default before
validation, exactly as `location or [0.0, 0.0, 0.0]` computes. -/
theorem buildCreateParams_falsy_loc (name ty : String) (location rotation scale : Val)
    (hl : truthy location = false) :
    buildCreateParams name ty location rotation scale
      = buildCreateParams name ty defLoc rotation scale := by
  unfold buildCreateParams
  rw [show pyOr location defLoc = defLoc from by simp [pyOr, hl],
    show pyOr defLoc defLoc = defLoc from rfl]

/-- A falsy rotation argument is replaced by the default before
validation. -/
theorem buildCreateParams_falsy_rot (name ty : String) (location rotation scale : Val)
    (hr : truthy rotation = false) :
    buildCreateParams name ty location rotation scale
      = buildCreateParams name ty location defLoc scale := by
  unfold buildCreateParams
  rw [show pyOr rotation defLoc = defLoc from by simp [pyOr, hr],
    show pyOr defLoc defLoc = defLoc from rfl]

/-- A falsy scale argument is replaced by the default before validation. -/
theorem buildCreateParams_falsy_scale (name ty : String) (location rotation scale : Val)
    (hs : truthy scale = false) :
    buildCreateParams name ty location rotation scale
      = buildCreateParams name ty location rotation defScale := by
  unfold buildCreateParams
  rw [show pyOr scale defScale = defScale from by simp [pyOr, hs],
    show pyOr defScale defScale = defScale from rfl]

/-- Claim C9: a falsy (for instance empty-list) geometry argument to
`create_actor` is not rejected: the call behaves exactly as if the
corresponding default triple had been supplied, and with empty lists
supplied throughout, the command is sent carrying the default triples. -/
theorem C9_falsy_replaced (env : Env) (name ty : String) (location rotation scale : Val) :
    (truthy location = false →
      create_actor env name ty location rotation scale
        = create_actor env name ty defLoc rotation scale)
  ∧ (truthy rotation = false →
      create_actor env name ty location rotation scale
        = create_actor env name ty location defLoc scale)
  ∧ (truthy scale = false →
      create_actor env name ty location rotation scale
        = create_actor env name ty location rotation defScale)
  ∧ (env.connOk = .ok () →
      (create_actor env name ty (.vList []) (.vList []) (.vList [])).2
        = [("create_actor", .vDict [("name", .vStr name), ("type", .vStr (pyUpper ty)),
            ("location", .vList [.vFloat 0, .vFloat 0, .vFloat 0]),
            ("rotation", .vList [.vFloat 0, .vFloat 0, .vFloat 0]),
            ("scale", .vList [.vFloat 1, .vFloat 1, .vFloat 1])])]) := by
  refine ⟨?_, ?_, ?_, ?_⟩
  · intro hl
    unfold create_actor
    rw [buildCreateParams_falsy_loc name ty location rotation scale hl]
  · intro hr
    unfold create_actor
    rw [buildCreateParams_falsy_rot name ty location rotation scale hr]
  · intro hs
    unfold create_actor
    rw [buildCreateParams_falsy_scale name ty location rotation scale hs]
  · intro h
    have hb : buildCreateParams name ty (.vList []) (.vList []) (.vList [])
        = .okParams (.vDict [("name", .vStr name), ("type", .vStr (pyUpper ty)),
            ("location", .vList [.vFloat 0, .vFloat 0, .vFloat 0]),
            ("rotation", .vList [.vFloat 0, .vFloat 0, .vFloat 0]),
            ("scale", .vList [.vFloat 1, .vFloat 1, .vFloat 1])]) := rfl
    cases hs : env.send "create_actor" (.vDict [("name", .vStr name), ("type", .vStr (pyUpper ty)),
        ("location", .vList [.vFloat 0, .vFloat 0, .vFloat 0]),
        ("rotation", .vList [.vFloat 0, .vFloat 0, .vFloat 0]),
        ("scale", .vList [.vFloat 1, .vFloat 1, .vFloat 1])]) with
    | error e => simp [create_actor, h, hb, hs]
    | ok resp => cases ht : truthy resp <;> simp [create_actor, h, hb, hs, ht]

/-- Claim C9 witness: an empty supplied location behaves as the default,
and the command is sent with the default triples. -/
theorem C9_falsy_replaced_witness :
    create_actor (envRespond okResp) "Box1" "cube" (.vList []) .vNone .vNone
      = create_actor (envRespond okResp) "Box1" "cube" defLoc .vNone .vNone
  ∧ (create_actor (envRespond okResp) "Box1" "cube" (.vList []) (.vList []) (.vList [])).2
      = [("create_actor", .vDict [("name", .vStr "Box1"), ("type", .vStr (pyUpper "cube")),
          ("location", .vList [.vFloat 0, .vFloat 0, .vFloat 0]),
          ("rotation", .vList [.vFloat 0, .vFloat 0, .vFloat 0]),
          ("scale", .vList [.vFloat 1, .vFloat 1, .vFloat 1])])] :=
  ⟨(C9_falsy_replaced (envRespond okResp) "Box1" "cube" (.vList []) .vNone .vNone).1 rfl,
   (C9_falsy_replaced (envRespond okResp) "Box1" "cube" (.vList []) (.vList [])
      (.vList [])).2.2.2 rfl⟩

/-- A successful `coerceSucceeds` test yields an actual coercion result. -/
theorem coerceSucceeds_ok (v : Val) (h : coerceSucceeds v = true) :
    ∃ w, coerceTriple v = .ok w := by
  unfold coerceSucceeds at h
  cases hc : coerceTriple v with
  | ok w => exact ⟨w, rfl⟩
  | error e => rw [hc] at h; cases h

/-- Counterexample to claim C2 as stated: an empty supplied location has
length different from 3, yet `create_actor` does not fail — the default is
silently substituted and the command is sent. -/
theorem C2_counterexample :
    create_actor (envRespond okResp) "Box1" "cube" (.vList []) .vNone .vNone
      = (okResp, [("create_actor", .vDict [("name", .vStr "Box1"), ("type", .vStr "CUBE"),
          ("location", .vList [.vFloat 0, .vFloat 0, .vFloat 0]),
          ("rotation", .vList [.vFloat 0, .vFloat 0, .vFloat 0]),
          ("scale", .vList [.vFloat 1, .vFloat 1, .vFloat 1])])]) := rfl

/-- Claim C2 (amended): a supplied truthy (non-empty) location, rotation
or scale that fails the 3-element-list check makes `create_actor` return
the failure dict naming that field, with nothing ever passed to
`send_command` — for rotation and scale, provided the earlier geometry
fields pass their check and coercion. -/
theorem C2_invalid_geometry (env : Env) (h : env.connOk = .ok ()) (name ty : String)
    (location rotation scale : Val) :
    (truthy location = true → isListLen3 location = false →
      create_actor env name ty location rotation scale
        = (errDict (invalidMsg "location"), []))
  ∧ (isListLen3 (pyOr location defLoc) = true → coerceSucceeds (pyOr location defLoc) = true →
     truthy rotation = true → isListLen3 rotation = false →
      create_actor env name ty location rotation scale
        = (errDict (invalidMsg "rotation"), []))
  ∧ (isListLen3 (pyOr location defLoc) = true → coerceSucceeds (pyOr location defLoc) = true →
     isListLen3 (pyOr rotation defLoc) = true → coerceSucceeds (pyOr rotation defLoc) = true →
     truthy scale = true → isListLen3 scale = false →
      create_actor env name ty location rotation scale
        = (errDict (invalidMsg "scale"), [])) := by
  refine ⟨?_, ?_, ?_⟩
  · intro ht hl
    have hp : pyOr location defLoc = location := by simp [pyOr, ht]
    simp [create_actor, h, buildCreateParams, hp, hl]
  · intro h1 h2 ht hl
    obtain ⟨w, hw⟩ := coerceSucceeds_ok _ h2
    have hp : pyOr rotation defLoc = rotation := by simp [pyOr, ht]
    simp [create_actor, h, buildCreateParams, h1, hw, hp, hl]
  · intro h1 h2 h3 h4 ht hl
    obtain ⟨w1, hw1⟩ := coerceSucceeds_ok _ h2
    obtain ⟨w2, hw2⟩ := coerceSucceeds_ok _ h4
    have hp : pyOr scale defScale = scale := by simp [pyOr, ht]
    simp [create_actor, h, buildCreateParams, h1, hw1, h3, hw2, hp, hl]

/-- Claim C2 witness: a 2-element location is rejected with the
location-naming message and nothing is sent. -/
theorem C2_invalid_geometry_witness :
    create_actor (envRespond okResp) "Box1" "cube" (.vList [.vInt 1, .vInt 2]) .vNone .vNone
      = (errDict (invalidMsg "location"), []) :=
  (C2_invalid_geometry (envRespond okResp) rfl "Box1" "cube"
    (.vList [.vInt 1, .vInt 2]) .vNone .vNone).1 rfl rfl

/-- Claim C10: a geometry argument that passes the 3-element-list check but
whose element-wise `float` coercion raises makes `create_actor` return the
generic failure dict whose message begins with `Error creating actor`
(rather than the Invalid-format message), with nothing ever passed to
`send_command` — for rotation and scale, provided the earlier geometry
fields pass their check and coercion. -/
theorem C10_coercion_failure (env : Env) (h : env.connOk = .ok ()) (name ty : String)
    (location rotation scale : Val) (e : PyErr) :
    (isListLen3 (pyOr location defLoc) = true →
     coerceTriple (pyOr location defLoc) = .error e →
      create_actor env name ty location rotation scale
        = (errDict ("Error creating actor: " ++ e.msg), []))
  ∧ (isListLen3 (pyOr location defLoc) = true → coerceSucceeds (pyOr location defLoc) = true →
     isListLen3 (pyOr rotation defLoc) = true →
     coerceTriple (pyOr rotation defLoc) = .error e →
      create_actor env name ty location rotation scale
        = (errDict ("Error creating actor: " ++ e.msg), []))
  ∧ (isListLen3 (pyOr location defLoc) = true → coerceSucceeds (pyOr location defLoc) = true →
     isListLen3 (pyOr rotation defLoc) = true → coerceSucceeds (pyOr rotation defLoc) = true →
     isListLen3 (pyOr scale defScale) = true →
     coerceTriple (pyOr scale defScale) = .error e →
      create_actor env name ty location rotation scale
        = (errDict ("Error creating actor: " ++ e.msg), [])) := by
  refine ⟨?_, ?_, ?_⟩
  · intro h1 hc
    simp [create_actor, h, buildCreateParams, h1, hc]
  · intro h1 h2 h3 hc
    obtain ⟨w, hw⟩ := coerceSucceeds_ok _ h2
    simp [create_actor, h, buildCreateParams, h1, hw, h3, hc]
  · intro h1 h2 h3 h4 h5 hc
    obtain ⟨w1, hw1⟩ := coerceSucceeds_ok _ h2
    obtain ⟨w2, hw2⟩ := coerceSucceeds_ok _ h4
    simp [create_actor, h, buildCreateParams, h1, hw1, h3, hw2, h5, hc]

/-- Claim C10 witness: a 3-element location containing `None` produces the
generic error message and nothing is sent. -/
theorem C10_coercion_failure_witness :
    create_actor (envRespond okResp) "Box1" "cube"
        (.vList [.vInt 0, .vInt 0, .vNone]) .vNone .vNone
      = (errDict ("Error creating actor: float() argument must be a string or a real number, not NoneType"), []) :=
  (C10_coercion_failure (envRespond okResp) rfl "Box1" "cube"
    (.vList [.vInt 0, .vInt 0, .vNone]) .vNone .vNone
    ⟨"float() argument must be a string or a real number, not NoneType"⟩).1 rfl rfl

/-- Claim C6: no operation propagates an exception — each operation is a
total function — and when the connection lookup raises, or the connection
is obtained but every `send_command` raises, each operation returns its
safe default: an empty list for the listing operations, a
success-false/message dict for `create_actor`, and an empty dict for the
rest. -/
theorem C6_no_raise (env : Env) (e : PyErr) (name ty pat : String)
    (location rotation scale : Val) :
    (env.connOk = .error e →
        get_actors_in_level env = (.vList [], [])
      ∧ find_actors_by_name env pat = (.vList [], [])
      ∧ create_actor env name ty location rotation scale
          = (errDict ("Error creating actor: " ++ e.msg), [])
      ∧ delete_actor env name = (.vDict [], [])
      ∧ set_actor_transform env name location rotation scale = (.vDict [], [])
      ∧ get_actor_properties env name = (.vDict [], []))
  ∧ (env.connOk = .ok () → (∀ c p, env.send c p = .error e) →
        (get_actors_in_level env).1 = .vList []
      ∧ (find_actors_by_name env pat).1 = .vList []
      ∧ isFailureDict (create_actor env name ty location rotation scale).1 = true
      ∧ (delete_actor env name).1 = .vDict []
      ∧ (set_actor_transform env name location rotation scale).1 = .vDict []
      ∧ (get_actor_properties env name).1 = .vDict []) := by
  constructor
  · intro h
    refine ⟨?_, ?_, ?_, ?_, ?_, ?_⟩ <;>
      simp [get_actors_in_level, find_actors_by_name, create_actor, delete_actor,
        set_actor_transform, get_actor_properties, h]
  · intro h hsend
    refine ⟨?_, ?_, ?_, ?_, ?_, ?_⟩
    · simp [get_actors_in_level, h, hsend]
    · simp [find_actors_by_name, h, hsend]
    · cases hb : buildCreateParams name ty location rotation scale with
      | earlyFail m => simp [create_actor, h, hb, isFailureDict, errDict]
      | raised e₂ => simp [create_actor, h, hb, isFailureDict, errDict]
      | okParams params => simp [create_actor, h, hb, hsend, isFailureDict, errDict]
    · simp [delete_actor, h, hsend]
    · simp [set_actor_transform, h, hsend]
    · simp [get_actor_properties, h, hsend]

/-- Claim C6 witness: a failing connection lookup yields the defaults, and
a failing `send_command` yields the defaults. -/
theorem C6_no_raise_witness :
    get_actors_in_level envConnFail = (.vList [], [])
  ∧ (delete_actor envSendFail "Box1").1 = .vDict []
  ∧ isFailureDict (create_actor envSendFail "Box1" "cube" .vNone .vNone .vNone).1 = true :=
  ⟨((C6_no_raise envConnFail ⟨"no connection"⟩ "Box1" "cube" "p" .vNone .vNone .vNone).1 rfl).1,
   ((C6_no_raise envSendFail ⟨"socket closed"⟩ "Box1" "cube" "p" .vNone .vNone .vNone).2 rfl
      (fun _ _ => rfl)).2.2.2.1,
   ((C6_no_raise envSendFail ⟨"socket closed"⟩ "Box1" "cube" "p" .vNone .vNone .vNone).2 rfl
      (fun _ _ => rfl)).2.2.1⟩

/-- A successful element-wise coercion preserves length and produces only
float values. -/
theorem coerceAll_floats (xs : List Val) (ys : List Val) (h : coerceAll xs = .ok ys) :
    ys.length = xs.length ∧ ∀ y ∈ ys, ∃ q, y = Val.vFloat q := by
  induction xs generalizing ys with
  | nil =>
    unfold coerceAll at h
    cases h
    exact ⟨rfl, by intro y hy; cases hy⟩
  | cons v vs ih =>
    unfold coerceAll at h
    cases hf : pyFloat v with
    | error e => rw [hf] at h; cases h
    | ok q =>
      rw [hf] at h
      cases hr : coerceAll vs with
      | error e => rw [hr] at h; cases h
      | ok rest =>
        rw [hr] at h
        cases h
        obtain ⟨hlen, hall⟩ := ih rest hr
        refine ⟨by simp [hlen], ?_⟩
        intro y hy
        cases hy with
        | head => exact ⟨q, rfl⟩
        | tail _ hy₂ => exact hall y hy₂

/-- A 3-element list of floats satisfies `isFloatTriple`. -/
theorem isFloatTriple_of (ys : List Val) (hlen : ys.length = 3)
    (hall : ∀ y ∈ ys, ∃ q, y = Val.vFloat q) :
    isFloatTriple (.vList ys) = true := by
  cases ys with
  | nil => simp at hlen
  | cons a t1 =>
    cases t1 with
    | nil => simp at hlen
    | cons b t2 =>
      cases t2 with
      | nil => simp at hlen
      | cons c t3 =>
        cases t3 with
        | nil =>
          obtain ⟨qa, ha⟩ := hall a (by simp)
          obtain ⟨qb, hb⟩ := hall b (by simp)
          obtain ⟨qc, hc⟩ := hall c (by simp)
          subst ha; subst hb; subst hc
          rfl
        | cons d t4 => simp at hlen

/-- Coercion of a length-3 list yields a float triple. -/
theorem floatTriple_of_coerce (u w : Val) (h3 : isListLen3 u = true)
    (hc : coerceTriple u = .ok w) : isFloatTriple w = true := by
  cases u with
  | vList xs =>
    cases hca : coerceAll xs with
    | error e => simp [coerceTriple, hca] at hc
    | ok ys =>
      simp [coerceTriple, hca] at hc
      subst hc
      obtain ⟨hlen, hall⟩ := coerceAll_floats xs ys hca
      have hx3 : xs.length = 3 := by simpa [isListLen3] using h3
      exact isFloatTriple_of ys (hlen.trans hx3) hall
  | vNone => simp [isListLen3] at h3
  | vBool b => simp [isListLen3] at h3
  | vInt n => simp [isListLen3] at h3
  | vFloat q => simp [isListLen3] at h3
  | vStr s => simp [isListLen3] at h3
  | vDict es => simp [isListLen3] at h3

/-- A boolean that is not false is true. -/
theorem bool_ne_false (b : Bool) (h : ¬ b = false) : b = true := by
  cases b with
  | true => rfl
  | false => exact absurd rfl h

/-- A params dict that survives the validation of `create_actor` has
exactly the five keys in order, with float triples under the three
geometry keys. -/
theorem buildCreateParams_ok_shape (name ty : String) (location rotation scale : Val)
    (params : Val)
    (hb : buildCreateParams name ty location rotation scale = .okParams params) :
    ∃ locC rotC sclC,
      params = .vDict [("name", .vStr name), ("type", .vStr (pyUpper ty)),
        ("location", locC), ("rotation", rotC), ("scale", sclC)]
      ∧ isFloatTriple locC = true ∧ isFloatTriple rotC = true
      ∧ isFloatTriple sclC = true := by
  simp only [buildCreateParams] at hb
  split at hb
  · cases hb
  · rename_i h1
    split at hb
    · cases hb
    · rename_i locC hcl
      split at hb
      · cases hb
      · rename_i h2
        split at hb
        · cases hb
        · rename_i rotC hcr
          split at hb
          · cases hb
          · rename_i h3
            split at hb
            · cases hb
            · rename_i sclC hcs
              cases hb
              exact ⟨locC, rotC, sclC, rfl,
                floatTriple_of_coerce _ _ (bool_ne_false _ h1) hcl,
                floatTriple_of_coerce _ _ (bool_ne_false _ h2) hcr,
                floatTriple_of_coerce _ _ (bool_ne_false _ h3) hcs⟩

/-- The commands `create_actor` records: at most the single `create_actor`
command whose params dict passed validation. -/
theorem create_actor_snd (env : Env) (name ty : String) (location rotation scale : Val) :
    (create_actor env name ty location rotation scale).2
      = match env.connOk, buildCreateParams name ty location rotation scale with
        | .ok _, .okParams params => [("create_actor", params)]
        | _, _ => [] := by
  cases hconn : env.connOk with
  | error e => simp [create_actor, hconn]
  | ok u =>
    cases hb : buildCreateParams name ty location rotation scale with
    | earlyFail m => simp [create_actor, hconn, hb]
    | raised e => simp [create_actor, hconn, hb]
    | okParams params =>
      cases hs : env.send "create_actor" params with
      | error e => simp [create_actor, hconn, hb, hs]
      | ok resp => cases ht : truthy resp <;> simp [create_actor, hconn, hb, hs, ht]

/-- Every command recorded by `create_actor` is the create command with a
params dict that passed validation. -/
theorem create_actor_trace (env : Env) (name ty : String) (location rotation scale : Val)
    (c : String) (p : Val)
    (hmem : (c, p) ∈ (create_actor env name ty location rotation scale).2) :
    c = "create_actor"
  ∧ buildCreateParams name ty location rotation scale = .okParams p := by
  rw [create_actor_snd] at hmem
  cases hconn : env.connOk with
  | error e => rw [hconn] at hmem; simp at hmem
  | ok u =>
    rw [hconn] at hmem
    cases hb : buildCreateParams name ty location rotation scale with
    | earlyFail m => rw [hb] at hmem; simp at hmem
    | raised e₂ => rw [hb] at hmem; simp at hmem
    | okParams params =>
      rw [hb] at hmem
      simp at hmem
      exact ⟨hmem.1, by rw [hmem.2]⟩

/-- Counterexample to claim C1 as stated: `set_actor_transform` passes a
supplied 2-element location to `send_command` unvalidated and uncoerced,
so not every geometry parameter sent is a 3-element float sequence. -/
theorem C1_counterexample :
    (set_actor_transform (envRespond okResp) "Box1"
        (.vList [.vInt 1, .vInt 2]) .vNone .vNone).2
      = [("set_actor_transform",
          .vDict [("name", .vStr "Box1"), ("location", .vList [.vInt 1, .vInt 2])])]
    ∧ isFloatTriple (.vList [.vInt 1, .vInt 2]) = false := ⟨rfl, rfl⟩

/-- Claim C1 (amended): in `create_actor`, every parameter named location,
rotation or scale inside a params mapping passed to `send_command` is
exactly a 3-element list of floats — supplied values validated and
coerced, absent or falsy values defaulted.  (`set_actor_transform` gives
no such guarantee: it forwards supplied geometry values as-is.) -/
theorem C1_create_geometry (env : Env) (name ty : String) (location rotation scale : Val)
    (c : String) (p : Val)
    (hmem : (c, p) ∈ (create_actor env name ty location rotation scale).2)
    (k : String) (hk : k = "location" ∨ k = "rotation" ∨ k = "scale")
    (v : Val) (hv : vDictGet? p k = some v) :
    isFloatTriple v = true := by
  obtain ⟨-, hb⟩ := create_actor_trace env name ty location rotation scale c p hmem
  obtain ⟨locC, rotC, sclC, hp, hL, hR, hS⟩ :=
    buildCreateParams_ok_shape name ty location rotation scale p hb
  subst hp
  rcases hk with hk | hk | hk <;> subst hk <;>
    simp [vDictGet?, dictGet?] at hv <;> subst hv <;> assumption

/-- Claim C1 witness at a concrete call: the location actually sent by a
default create is a float triple. -/
theorem C1_create_geometry_witness :
    isFloatTriple (.vList [.vFloat 0, .vFloat 0, .vFloat 0]) = true :=
  C1_create_geometry (envRespond okResp) "Box1" "cube" .vNone .vNone .vNone
    "create_actor"
    (.vDict [("name", .vStr "Box1"), ("type", .vStr "CUBE"),
      ("location", .vList [.vFloat 0, .vFloat 0, .vFloat 0]),
      ("rotation", .vList [.vFloat 0, .vFloat 0, .vFloat 0]),
      ("scale", .vList [.vFloat 1, .vFloat 1, .vFloat 1])])
    (List.mem_singleton.mpr rfl) "location" (Or.inl rfl)
    (.vList [.vFloat 0, .vFloat 0, .vFloat 0]) rfl

/-- `len` succeeds exactly on the values `lenSupported` accepts. -/
theorem lenSupported_ok (c : Val) (h : lenSupported c = true) : ∃ n, pyLen c = .ok n := by
  cases c with
  | vStr s => exact ⟨s.length, rfl⟩
  | vList xs => exact ⟨xs.length, rfl⟩
  | vDict es => exact ⟨es.length, rfl⟩
  | vNone => simp [lenSupported] at h
  | vBool b => simp [lenSupported] at h
  | vInt n => simp [lenSupported] at h
  | vFloat q => simp [lenSupported] at h

/-- Reading the `content` entry of a dict, followed by the `len` of the log
line, succeeds when the entry is present and supports `len`. -/
theorem contentAt_dict (es : List (String × Val)) (c : Val)
    (hc : dictGet? es "content" = some c) (hl : lenSupported c = true) :
    contentAt (.vDict es) = .ok c := by
  obtain ⟨n, hn⟩ := lenSupported_ok c hl
  simp [contentAt, pyIndex, hc, hn]

/-- Any response on which the membership probe raises is normalized to the
empty list by `get_actors_in_level`. -/
theorem runListContent_nonIterable (r : Val)
    (hpc : ∀ k, pyContains k r = .error ⟨"argument of type is not iterable"⟩) :
    runListContent r = .vList [] := by
  cases ht : truthy r with
  | false => simp [runListContent, listContentBody, ht]
  | true => simp [runListContent, listContentBody, ht, nestedCond, hpc]

/-- The claim's normalizer yields the empty list on any value presenting
neither recognized shape. -/
theorem specListContent_nonDict (r : Val) (hn : nestedContent? r = none)
    (hd : directContent? r = none) : specListContent r = .vList [] := by
  cases ht : truthy r with
  | false => simp [specListContent, ht]
  | true => simp [specListContent, ht, hn, hd]

/-- A non-dict response on which the membership probe does not raise
(strings, lists) is normalized to the empty list: whichever way the
probes go, either subscripting raises or no shape is recognized. -/
theorem runListContent_nonDict_iterable (r : Val)
    (hidx : ∀ k, pyIndex r k = .error ⟨"TypeError: indices must be integers"⟩)
    (hcon : ∀ k, ∃ b, pyContains k r = .ok b) :
    runListContent r = .vList [] := by
  cases ht : truthy r with
  | false => simp [runListContent, listContentBody, ht]
  | true =>
    obtain ⟨b1, h1⟩ := hcon "result"
    obtain ⟨b2, h2⟩ := hcon "content"
    cases b1 <;> cases b2 <;>
      simp [runListContent, listContentBody, ht, nestedCond, h1, h2, contentAt, hidx]

/-- On every response of good shape, the normalization performed by
`get_actors_in_level` agrees with the specification's `list_content`
normalizer. -/
theorem runListContent_goodShape (r : Val) (hs : goodShape r = true) :
    runListContent r = specListContent r := by
  cases r with
  | vNone => rfl
  | vBool b =>
    rw [runListContent_nonIterable (.vBool b) (fun _ => rfl),
      specListContent_nonDict (.vBool b) rfl rfl]
  | vInt n =>
    rw [runListContent_nonIterable (.vInt n) (fun _ => rfl),
      specListContent_nonDict (.vInt n) rfl rfl]
  | vFloat q =>
    rw [runListContent_nonIterable (.vFloat q) (fun _ => rfl),
      specListContent_nonDict (.vFloat q) rfl rfl]
  | vStr s =>
    rw [runListContent_nonDict_iterable (.vStr s) (fun _ => rfl) (fun k => ⟨_, rfl⟩),
      specListContent_nonDict (.vStr s) rfl rfl]
  | vList xs =>
    rw [runListContent_nonDict_iterable (.vList xs) (fun _ => rfl) (fun k => ⟨_, rfl⟩),
      specListContent_nonDict (.vList xs) rfl rfl]
  | vDict es =>
    simp only [goodShape, Bool.and_eq_true] at hs
    obtain ⟨hres, hdir⟩ := hs
    cases ht : truthy (Val.vDict es) with
    | false => simp [runListContent, listContentBody, specListContent, ht]
    | true =>
      cases hr : dictGet? es "result" with
      | none =>
        have hnc : nestedCond (Val.vDict es) = .ok false := by
          simp [nestedCond, pyContains, dictHasKey, hr]
        cases hc : dictGet? es "content" with
        | none =>
          simp [runListContent, listContentBody, ht, hnc, pyContains, dictHasKey, hc,
            specListContent, nestedContent?, directContent?, hr]
        | some c =>
          have hl : lenSupported c = true := by simpa [directShapeOk, hc] using hdir
          have hca := contentAt_dict es c hc hl
          simp [runListContent, listContentBody, ht, hnc, pyContains, dictHasKey, hc, hca,
            specListContent, nestedContent?, directContent?, hr]
      | some v =>
        cases v with
        | vDict rs =>
          have hpi : pyIndex (Val.vDict es) "result" = .ok (Val.vDict rs) := by
            simp [pyIndex, hr]
          cases hrc : dictGet? rs "content" with
          | some c =>
            have hl : lenSupported c = true := by simpa [resultShapeOk, hr, hrc] using hres
            have hnc : nestedCond (Val.vDict es) = .ok true := by
              simp [nestedCond, pyContains, dictHasKey, hr, hpi, hrc]
            have hca := contentAt_dict rs c hrc hl
            simp [runListContent, listContentBody, ht, hnc, hpi, hca,
              specListContent, nestedContent?, hr, hrc]
          | none =>
            have hnc : nestedCond (Val.vDict es) = .ok false := by
              simp [nestedCond, pyContains, dictHasKey, hr, hpi, hrc]
            cases hc : dictGet? es "content" with
            | none =>
              simp [runListContent, listContentBody, ht, hnc, pyContains, dictHasKey, hc,
                specListContent, nestedContent?, directContent?, hr, hrc]
            | some c =>
              have hl : lenSupported c = true := by simpa [directShapeOk, hc] using hdir
              have hca := contentAt_dict es c hc hl
              simp [runListContent, listContentBody, ht, hnc, pyContains, dictHasKey, hc,
                hca, specListContent, nestedContent?, directContent?, hr, hrc]
        | vNone => simp [resultShapeOk, hr] at hres
        | vBool b => simp [resultShapeOk, hr] at hres
        | vInt n => simp [resultShapeOk, hr] at hres
        | vFloat q => simp [resultShapeOk, hr] at hres
        | vStr s => simp [resultShapeOk, hr] at hres
        | vList xs => simp [resultShapeOk, hr] at hres

/-- Counterexample to claim C3 as stated: on the response
`{"result": 5, "content": ["A","B"]}` no nested result mapping is present
and the `content` key is directly present, so the claim predicts
`["A","B"]` — but the probe `"content" in response["result"]` raises
`TypeError` on the non-iterable `5`, the exception is caught, and the code
returns the empty list. -/
theorem C3_counterexample :
    (get_actors_in_level (envRespond (.vDict [("result", .vInt 5),
        ("content", .vList [.vStr "A", .vStr "B"])]))).1 = .vList []
  ∧ specListContent (.vDict [("result", .vInt 5),
        ("content", .vList [.vStr "A", .vStr "B"])]) = .vList [.vStr "A", .vStr "B"]
  ∧ nestedContent? (.vDict [("result", .vInt 5),
        ("content", .vList [.vStr "A", .vStr "B"])]) = none
  ∧ directContent? (.vDict [("result", .vInt 5),
        ("content", .vList [.vStr "A", .vStr "B"])])
      = some (.vList [.vStr "A", .vStr "B"]) :=
  ⟨rfl, rfl, rfl, rfl⟩

/-- Claim C3 (amended): for every response in which any `result` key maps
to a mapping and any selected `content` value supports `len`,
`get_actors_in_level` returns exactly what the specification's
`list_content` normalizer prescribes: empty/absent gives the empty
sequence, else the nested `result.content` (which takes precedence), else
the direct `content`, else the empty sequence.  (When a `result` key maps
to a non-mapping, the probe can raise and the caught exception yields the
empty sequence instead of the direct `content`.) -/
theorem C3_list_content (env : Env) (h : env.connOk = .ok ()) (r : Val)
    (hr : env.send "get_actors_in_level" (.vDict []) = .ok r)
    (hs : goodShape r = true) :
    (get_actors_in_level env).1 = specListContent r := by
  simp [get_actors_in_level, h, hr, runListContent_goodShape r hs]

/-- Claim C3 witness: the nested shape yields its content list, through
the theorem at a concrete environment. -/
theorem C3_list_content_witness :
    (get_actors_in_level (envRespond (.vDict [("result",
        .vDict [("content", .vList [.vStr "A"])])]))).1 = .vList [.vStr "A"] :=
  (C3_list_content (envRespond (.vDict [("result",
      .vDict [("content", .vList [.vStr "A"])])])) rfl
    (.vDict [("result", .vDict [("content", .vList [.vStr "A"])])]) rfl rfl).trans rfl
